import Mathlib

/-! Verification development for the Definition of Ready checker and the
backlog staleness scoring: a shallow embedding of `dor_checker.py` together
with the staleness formula of `backlog_cull.py`, and theorems about the
embedded functions. Fallible code paths (attribute errors, iteration over a
non-iterable, joining non-strings) are embedded with `Except Unit`. -/

namespace PoAgent

set_option maxRecDepth 100000

/-- A JSON-like value: the shape of issue records handed to the checker. -/
inductive JVal where
  | null
  | bool (b : Bool)
  | num (n : Int)
  | str (s : String)
  | arr (xs : List JVal)
  | obj (kvs : List (String × JVal))
  deriving Repr

/-- First-match association lookup, embedding Python dict access `d.get(k)`
(dict keys are unique, so first match is the match). -/
def lookupKey : List (String × JVal) → String → Option JVal
  | [], _ => none
  | (k, v) :: rest, key => if k = key then some v else lookupKey rest key

/-- String-valued association lookup, for the custom-field alias table. -/
def lookupStr : List (String × String) → String → Option String
  | [], _ => none
  | (k, v) :: rest, key => if k = key then some v else lookupStr rest key

/-- Python truthiness of a field value. -/
def truthy : JVal → Bool
  | JVal.null => false
  | JVal.bool b => b
  | JVal.num n => n != 0
  | JVal.str s => s != ""
  | JVal.arr xs => !xs.isEmpty
  | JVal.obj kvs => !kvs.isEmpty

/-- Python repr of a value, as used when containers are stringified. -/
def pyRepr : JVal → String
  | JVal.null => "None"
  | JVal.bool b => if b then "True" else "False"
  | JVal.num n => toString n
  | JVal.str s => "\x27" ++ s ++ "\x27"
  | JVal.arr xs => "[" ++ String.intercalate ", " (xs.attach.map (fun x => pyRepr x.1)) ++ "]"
  | JVal.obj kvs =>
      "\x7b" ++
        String.intercalate ", "
          (kvs.attach.map
            (fun kv => "\x27" ++ kv.1.1 ++ "\x27: " ++ pyRepr kv.1.2)) ++
        "\x7d"
decreasing_by
  · have := List.sizeOf_lt_of_mem x.2
    simp only [JVal.arr.sizeOf_spec]
    omega
  · have := List.sizeOf_lt_of_mem kv.2
    have h2 : sizeOf kv.1.2 < sizeOf kv.1 := by
      cases kv.1 with
      | mk a b => simp only [Prod.mk.sizeOf_spec]; omega
    simp only [JVal.obj.sizeOf_spec]
    omega

/-- Python str() of a value: strings unchanged, containers via repr. -/
def pyStr : JVal → String
  | JVal.str s => s
  | v => pyRepr v

/-- Python str.strip(): drop leading and trailing whitespace. -/
def pyStrip (s : String) : String :=
  String.mk (((s.toList.dropWhile Char.isWhitespace).reverse.dropWhile Char.isWhitespace).reverse)

/-- Python str.lower(), character by character. -/
def pyLower (s : String) : String := String.mk (s.toList.map Char.toLower)

/-- Accumulator loop for whitespace splitting: the accumulator holds the
current token reversed. -/
def splitWsAux : List Char → List Char → List String
  | [], acc => if acc.isEmpty then [] else [String.mk acc.reverse]
  | c :: cs, acc =>
      if c.isWhitespace then
        if acc.isEmpty then splitWsAux cs [] else String.mk acc.reverse :: splitWsAux cs []
      else splitWsAux cs (c :: acc)

/-- Python str.split() with no separator: split on whitespace runs, no empties. -/
def pySplitWs (s : String) : List String := splitWsAux s.toList []

/-- Whitespace normalization used by the heuristics: `' '.join(text.split())`. -/
def normalizeWs (s : String) : String := String.intercalate " " (pySplitWs s)

/-- Whether the first character list starts the second. -/
def startsList : List Char → List Char → Bool
  | [], _ => true
  | _ :: _, [] => false
  | a :: as, b :: bs => a == b && startsList as bs

/-- Whether the first character list occurs contiguously inside the second. -/
def pyInList (needle : List Char) : List Char → Bool
  | [] => needle.isEmpty
  | b :: bs => startsList needle (b :: bs) || pyInList needle bs

/-- Python substring test `needle in hay`. -/
def pyIn (needle hay : String) : Bool := pyInList needle.toList hay.toList

/-- Python str.startswith(). -/
def pyStartsWith (pre s : String) : Bool := startsList pre.toList s.toList

/-- Embeds `DoRChecker._has_meaningful_content` (dor_checker.py lines 317 to 344). -/
def _has_meaningful_content (text : String) : Bool :=
  if text == "" || (pyStrip text).length < 20 then false
  else
    if (["as a i would like so that",
         "steps to reproduce 1. login 2. navigate to page 3. click stuff",
         "please describe what the expected behavior is",
         "what actually happens"].any
          (fun phrase => pyIn phrase (normalizeWs (pyLower text)))) then false
    else true

/-- Embeds `DoRChecker._is_story_syntax_template` (dor_checker.py lines 346
to 377); the Lean name shortens the source name. -/
def _is_story_template (text : String) : Bool :=
  if text == "" then true
  else
    if (["as a i want so that",
         "as a i would like so that",
         "as a [user type] i want [feature] so that [benefit]",
         "as a [user type] i would like [feature] so that [benefit]"].any
          (fun pat => pyIn pat (normalizeWs (pyLower text)))) then true
    else if (normalizeWs (pyLower text)).length < 30
        && pyIn "as a" (normalizeWs (pyLower text))
        && (pyIn "i want" (normalizeWs (pyLower text))
            || pyIn "i would like" (normalizeWs (pyLower text))) then true
    else false

/-- Embeds `DoRChecker._get_keywords_for_field` (dor_checker.py lines 379 to 398). -/
def _get_keywords_for_field (field_name : String) : List String :=
  if field_name == "environments" then
    ["staging", "pre-prod", "pre-production", "production", "environment", "deploy"]
  else if field_name == "security" then
    ["security", "threat", "risk", "authentication", "authorization", "vulnerability"]
  else if field_name == "documentation" then
    ["documentation", "docs", "wiki", "readme", "confluence"]
  else if field_name == "demo" then
    ["demo", "demonstrate", "show", "presentation"]
  else if field_name == "cost" then
    ["cost", "price", "budget", "expense", "billing", "$"]
  else if field_name == "telemetry" then
    ["telemetry", "metrics", "monitoring", "alert", "observability", "logging",
     "datadog", "grafana"]
  else [field_name]

/-- Embeds `DoRChecker.get_readiness_level` (dor_checker.py lines 445 to 462). -/
def get_readiness_level (percentage : ℚ) : String :=
  if percentage ≥ 90 then "✅ Ready"
  else if percentage ≥ 70 then "⚠️  Nearly Ready"
  else if percentage ≥ 50 then "🔸 Partially Ready"
  else "❌ Not Ready"

/-- The age factor of `BacklogCull._analyze_issue` (backlog_cull.py line 182). -/
def age_factor (age_days : ℚ) : ℚ := min (age_days / 365) 1 * 40

/-- The inactivity factor of `BacklogCull._analyze_issue` (backlog_cull.py line 183). -/
def inactivity_factor (days_since_update : ℚ) : ℚ := min (days_since_update / 180) 1 * 40

/-- The refinement factor of `BacklogCull._analyze_issue` (backlog_cull.py line 184). -/
def refinement_factor (refinement_score : ℚ) : ℚ := (100 - refinement_score) / 100 * 20

/-- The staleness score of `BacklogCull._analyze_issue` (backlog_cull.py line 186). -/
def staleness_score (age_days days_since_update refinement_score : ℚ) : ℚ :=
  age_factor age_days + inactivity_factor days_since_update +
    refinement_factor refinement_score

/-- Python round() to an integer: round half to even. -/
def pyRoundInt (q : ℚ) : ℤ :=
  let f := ⌊q⌋
  let r := q - f
  if r < 1 / 2 then f
  else if 1 / 2 < r then f + 1
  else if f % 2 = 0 then f else f + 1

/-- Python round(x, 1): round to one decimal place, half to even. -/
def round1 (q : ℚ) : ℚ := (pyRoundInt (q * 10) : ℚ) / 10

/-- A successful association lookup returns a structurally smaller value. -/
theorem sizeOf_lt_of_lookupKey {kvs : List (String × JVal)} {k : String} {v : JVal}
    (h : lookupKey kvs k = some v) : sizeOf v < sizeOf kvs := by
  induction kvs with
  | nil => simp [lookupKey] at h
  | cons hd tl ih =>
    cases hd with
    | mk a b =>
      by_cases hak : a = k
      · simp [lookupKey, hak] at h
        subst h
        simp only [List.cons.sizeOf_spec, Prod.mk.sizeOf_spec]
        omega
      · simp [lookupKey, hak] at h
        have := ih h
        simp only [List.cons.sizeOf_spec]
        omega

/-- The text parts a dict node contributes on its own: its text payload,
when the node is tagged `text` (an absent payload defaults to ""). -/
def selfPartsOf (kvs : List (String × JVal)) : List JVal :=
  if (match lookupKey kvs "type" with
      | some (JVal.str t) => t == "text"
      | _ => false) then
    [(lookupKey kvs "text").getD (JVal.str "")]
  else []

mutual

/-- Embeds the inner `extract_recursive` of `DoRChecker._extract_adf_text`
(dor_checker.py lines 301 to 312), collecting the raw text payloads. A dict
appends its text payload when tagged `text`, then iterates its `content`
value: iterating a list recurses into each child, iterating a string or a
dict visits strings (which collect nothing), and iterating a number, a
boolean or None is a TypeError, embedded as `Except.error`. -/
def extractNode : JVal → Except Unit (List JVal)
  | JVal.obj kvs =>
    (match _h : lookupKey kvs "content" with
    | some (JVal.arr xs) => Except.map (fun ps => selfPartsOf kvs ++ ps) (extractList xs)
    | some (JVal.str _) => Except.ok (selfPartsOf kvs)
    | some (JVal.obj _) => Except.ok (selfPartsOf kvs)
    | some _ => Except.error ()
    | none => Except.ok (selfPartsOf kvs))
  | JVal.arr xs => extractList xs
  | _ => Except.ok []
termination_by v => sizeOf v
decreasing_by
  · have h1 := sizeOf_lt_of_lookupKey _h
    simp only [JVal.obj.sizeOf_spec, JVal.arr.sizeOf_spec] at h1 ⊢
    omega
  · simp only [JVal.arr.sizeOf_spec]
    omega

/-- Recursion of `extract_recursive` over a list node, in order. -/
def extractList : List JVal → Except Unit (List JVal)
  | [] => Except.ok []
  | x :: xs => do
      let a ← extractNode x
      let b ← extractList xs
      Except.ok (a ++ b)
termination_by xs => sizeOf xs
decreasing_by
  · simp only [List.cons.sizeOf_spec]
    omega
  · simp only [List.cons.sizeOf_spec]
    omega

end

/-- Embeds the final `' '.join(text_parts)`: Python join raises a TypeError
unless every collected part is a string. -/
def joinParts : List JVal → Except Unit (List String)
  | [] => Except.ok []
  | JVal.str s :: rest => Except.map (fun ss => s :: ss) (joinParts rest)
  | _ :: _ => Except.error ()

/-- Embeds `DoRChecker._extract_adf_text` (dor_checker.py lines 286 to 315):
non-dict input is stringified; a dict is traversed depth first and the
collected text parts are joined with single spaces. -/
def _extract_adf_text (adf : JVal) : Except Unit String :=
  match adf with
  | JVal.obj kvs => do
      let parts ← extractNode (JVal.obj kvs)
      let ss ← joinParts parts
      Except.ok (String.intercalate " " ss)
  | v => Except.ok (pyStr v)

/-- A Definition of Ready checklist rule, as read from configuration.
`field` is `item.get('field')`, `field_name` the explicit custom field
identifier when the `field_name` key is present, and the three flags are
the truthiness of the corresponding optional keys. -/
structure ChecklistItem where
  name : String
  field : Option String
  field_name : Option String
  weight : ℚ
  optional : Bool
  applies_to : List String
  optional_for_non_stories : Bool
  check_in_description : Bool
  deriving Repr

/-- The checker configuration: the ordered rule list and the custom-field
alias table. -/
structure DoRConfig where
  checklist : List ChecklistItem
  custom_fields : List (String × String)
  deriving Repr

/-- The custom-field resolution of `DoRChecker._check_field` (dor_checker.py
lines 213 to 222): an explicit identifier wins, then the alias table, then a
literal `customfield_` name; otherwise none. -/
def resolveCfId (cfg : DoRConfig) (item : ChecklistItem) : Option String :=
  match item.field_name with
  | some cfid => some cfid
  | none =>
    match item.field with
    | some fn =>
        match lookupStr cfg.custom_fields fn with
        | some cfid => some cfid
        | none => if pyStartsWith "customfield_" fn then some fn else none
    | none => none

/-- The general custom-field content checks of `DoRChecker._check_field`
(dor_checker.py lines 246 to 266), dispatching on the shape of the value. -/
def generalCustomCheck (item : ChecklistItem) (value : JVal) : Except Unit (Bool × String) :=
  let notPopulated : Except Unit (Bool × String) :=
    Except.ok (false, "Field \x27" ++ item.name ++ "\x27 is not populated")
  if truthy value then
    match value with
    | JVal.obj kvs =>
        if (lookupKey kvs "content").isSome then do
          let content_text ← _extract_adf_text (JVal.obj kvs)
          if _has_meaningful_content content_text then
            Except.ok (true, "Field is populated (" ++ toString content_text.length ++ " chars)")
          else
            Except.ok (false, "Field contains only template/default text")
        else
          match lookupKey kvs "value" with
          | some v => Except.ok (true, "Set to: " ++ pyStr v)
          | none => notPopulated
    | JVal.str s =>
        if pyStrip s != "" then Except.ok (true, "Value: " ++ s) else notPopulated
    | JVal.num n =>
        if pyStrip (toString n) != "" then Except.ok (true, "Value: " ++ toString n)
        else notPopulated
    | JVal.bool b =>
        if pyStrip (pyStr (JVal.bool b)) != "" then
          Except.ok (true, "Value: " ++ pyStr (JVal.bool b))
        else notPopulated
    | JVal.arr xs =>
        if xs.length > 0 then
          Except.ok (true, "Contains " ++ toString xs.length ++ " item(s)")
        else notPopulated
    | JVal.null => notPopulated
  else notPopulated

/-- The description text read by the `check_in_description` branch
(dor_checker.py lines 270 to 274), before lower-casing. -/
def descTextOf (fields : List (String × JVal)) : Except Unit String :=
  match (lookupKey fields "description").getD (JVal.str "") with
  | JVal.str s => Except.ok s
  | v => _extract_adf_text v

/-- Embeds `DoRChecker._check_field` (dor_checker.py lines 183 to 284). -/
def _check_field (cfg : DoRConfig) (item : ChecklistItem) (fields : List (String × JVal))
    (issue_type : String) : Except Unit (Bool × String) :=
  if item.field = some "summary" then
    let value := (lookupKey fields "summary").getD (JVal.str "")
    if truthy value then
      match value with
      | JVal.str s =>
          if (pyStrip s).length > 3 then Except.ok (true, "Title: \x27" ++ s ++ "\x27")
          else Except.ok (false, "Title is missing or too short")
      | _ => Except.error ()
    else Except.ok (false, "Title is missing or too short")
  else if item.field = some "parent" then
    let parent := (lookupKey fields "parent").getD JVal.null
    if truthy parent then
      match parent with
      | JVal.obj kvs =>
          Except.ok (true, "Linked to " ++ pyStr ((lookupKey kvs "key").getD JVal.null))
      | _ => Except.error ()
    else if item.optional then Except.ok (true, "Optional - No parent epic")
    else Except.ok (false, "No parent epic linked")
  else
    let custom_field_id := (resolveCfId cfg item).getD ""
    if custom_field_id != "" then
      let value := (lookupKey fields custom_field_id).getD JVal.null
      if item.optional_for_non_stories && issue_type != "" && issue_type != "story" then
        if !truthy value then Except.ok (true, "N/A (not required for this issue type)")
        else do
          let content_text ← _extract_adf_text value
          if _is_story_template content_text then
            Except.ok (true, "N/A (template text, not required for this issue type)")
          else if _has_meaningful_content content_text then
            Except.ok (true, "Optional but provided (" ++ toString content_text.length ++ " chars)")
          else generalCustomCheck item value
      else generalCustomCheck item value
    else if item.check_in_description then do
      let dt ← descTextOf fields
      let desc_text := pyLower dt
      match item.field with
      | none => Except.error ()
      | some fn =>
        let keywords := _get_keywords_for_field fn
        let found_keywords := keywords.filter (fun kw => pyIn kw desc_text)
        if !found_keywords.isEmpty && desc_text.length > 50 then
          Except.ok (true, "Mentioned in description: " ++ String.intercalate ", " found_keywords)
        else
          Except.ok (false, "Not mentioned in description (expected: " ++
            String.intercalate ", " (keywords.take 3) ++ ")")
    else Except.ok (false, "Could not evaluate field")

/-- A per-rule outcome, one entry of the result checklist. -/
structure CheckResult where
  name : String
  passed : Bool
  optional : Bool
  weight : ℚ
  score : ℚ
  details : String
  deriving Repr

/-- Python dict shape requirement: `.get` on a non-dict is an AttributeError. -/
def objKvs : JVal → Except Unit (List (String × JVal))
  | JVal.obj kvs => Except.ok kvs
  | _ => Except.error ()

/-- The issue-type lookup of `DoRChecker.check_issue` (dor_checker.py lines
44 to 45): `fields.get('issuetype', {}).get('name', '').lower()`. -/
def issueTypeOf (issue_data : JVal) : Except Unit String := do
  let ikvs ← objKvs issue_data
  let fields ← objKvs ((lookupKey ikvs "fields").getD (JVal.obj []))
  let itkvs ← objKvs ((lookupKey fields "issuetype").getD (JVal.obj []))
  match (lookupKey itkvs "name").getD (JVal.str "") with
  | JVal.str s => Except.ok (pyLower s)
  | _ => Except.error ()

/-- The checklist loop of `DoRChecker.check_issue` (dor_checker.py lines 51
to 78), threading the running score, the maximum and the result list. -/
def processChecklist (cfg : DoRConfig) (fields : List (String × JVal)) (issue_type : String) :
    List ChecklistItem → ℚ → ℚ → List CheckResult → Except Unit (ℚ × ℚ × List CheckResult)
  | [], total_score, max_possible, results => Except.ok (total_score, max_possible, results)
  | item :: rest, total_score, max_possible, results =>
    if !item.applies_to.isEmpty && !((item.applies_to.map pyLower).contains issue_type) then
      processChecklist cfg fields issue_type rest total_score max_possible results
    else do
      let (passed, details) ← _check_field cfg item fields issue_type
      let score := if passed then item.weight else 0
      processChecklist cfg fields issue_type rest (total_score + score)
        (max_possible + item.weight)
        (results ++ [⟨item.name, passed, item.optional, item.weight, score, details⟩])

/-- Embeds `DoRChecker._generate_recommendations` (dor_checker.py lines 400
to 443); the source also receives the issue fields and type but reads
neither, so they are omitted here. -/
def _generate_recommendations (results : List CheckResult) : List String :=
  let failed_items := results.filter (fun r => !r.passed && !r.optional)
  if failed_items.isEmpty then
    ["✓ Issue meets all required Definition of Ready criteria!"]
  else
    let recs := ("Missing " ++ toString failed_items.length ++ " required item(s):") ::
      failed_items.map (fun r => "  • " ++ r.name ++ ": " ++ r.details)
    let recs := if failed_items.any (fun r => pyIn "story syntax" (pyLower r.name)) then
        recs ++ ["\n💡 Tip: Use the story syntax template:",
                 "   As a [USER TYPE]", "   I want [FEATURE]", "   So that [BENEFIT]"]
      else recs
    if failed_items.any (fun r => pyIn "acceptance criteria" (pyLower r.name)) then
      recs ++ ["\n💡 Tip: Use BDD/Gherkin format:",
               "   Given [precondition]", "   When [action]", "   Then [expected outcome]"]
    else recs

/-- The aggregate result of a Definition of Ready check. -/
structure DoRResult where
  score : ℚ
  max_score : ℚ
  percentage : ℚ
  checklist : List CheckResult
  recommendations : List String
  issue_key : Option JVal
  summary : Option JVal
  status : Option JVal
  deriving Repr

/-- Embeds `DoRChecker.check_issue` (dor_checker.py lines 33 to 95). -/
def check_issue (cfg : DoRConfig) (issue_data : JVal) : Except Unit DoRResult := do
  let issue_type ← issueTypeOf issue_data
  let ikvs ← objKvs issue_data
  let fields ← objKvs ((lookupKey ikvs "fields").getD (JVal.obj []))
  let (total_score, max_possible, results) ←
    processChecklist cfg fields issue_type cfg.checklist 0 0 []
  let percentage : ℚ := if max_possible > 0 then total_score / max_possible * 100 else 0
  let recommendations := _generate_recommendations results
  let skvs ← objKvs ((lookupKey fields "status").getD (JVal.obj []))
  Except.ok ⟨total_score, max_possible, round1 percentage, results, recommendations,
    lookupKey ikvs "key", lookupKey fields "summary", lookupKey skvs "name"⟩

/-- A qualitative review item handed to the external judge. `content` is an
Option because the source builds these dictionaries literally and one of
them carries no content key. -/
structure ReviewItem where
  field_name : String
  criterion : String
  content : Option String
  prompt : String
  deriving Repr

/-- Embeds `DoRChecker.get_content_for_llm_review` (dor_checker.py lines 97
to 181). -/
def get_content_for_llm_review (cfg : DoRConfig) (issue_data : JVal) :
    Except Unit (List ReviewItem) := do
  let ikvs ← objKvs issue_data
  let fields ← objKvs ((lookupKey ikvs "fields").getD (JVal.obj []))
  let story_val :=
    ((lookupStr cfg.custom_fields "story_syntax").bind (lookupKey fields)).getD JVal.null
  let storyItems ←
    (if truthy story_val then do
      let content ← _extract_adf_text story_val
      if content != "" && content.length > 10 then
        Except.ok [(⟨"story_syntax", "Story syntax quality (As a... I want... So that...)",
          some content,
          "Evaluate if this story syntax follows the format \"As a [user type] I want [feature] So that [benefit]\" and provides meaningful context. Is it complete and valuable, or just template text?"⟩ : ReviewItem)]
      else Except.ok []
    else Except.ok [])
  let ac_val :=
    ((lookupStr cfg.custom_fields "acceptance_criteria").bind (lookupKey fields)).getD JVal.null
  let acItems ←
    (if truthy ac_val then do
      let content ← _extract_adf_text ac_val
      if content != "" && content.length > 10 then
        Except.ok [(⟨"acceptance_criteria", "Acceptance criteria quality (BDD/Gherkin)",
          some content,
          "Evaluate if these acceptance criteria use proper BDD/Gherkin format (Given/When/Then or Feature/Scenario format) and define testable, specific outcomes. Are they meaningful and complete, or just boilerplate?"⟩ : ReviewItem)]
      else Except.ok []
    else Except.ok [])
  let description := (lookupKey fields "description").getD (JVal.str "")
  let descItems ←
    (if truthy description then do
      let desc_text ← _extract_adf_text description
      if desc_text != "" && desc_text.length > 20 then
        Except.ok
          [(⟨"environments", "Environments defined (Staging/Pre-prod/Production)",
            some desc_text,
            "Does this description mention or discuss deployment to different environments like staging, pre-production, and production? Look for environment-specific concerns or deployment strategies."⟩ : ReviewItem),
           ⟨"security", "Security posture/implications/risks defined", some desc_text,
            "Does this description address security considerations, risks, threats, authentication, authorization, data protection, or compliance requirements?"⟩,
           ⟨"documentation", "Relevant documentation identified", some desc_text,
            "Does this description reference or link to relevant documentation, wikis, Confluence pages, ADRs, or other knowledge base articles?"⟩,
           ⟨"demo", "What to demo has been defined", none,
            "Does this description specify what will be demonstrated or shown to stakeholders upon completion?"⟩,
           ⟨"cost", "Cost implications considered", some desc_text,
            "Does this description discuss cost implications, infrastructure expenses, licensing fees, or budget considerations?"⟩,
           ⟨"telemetry", "Telemetry considered - metrics and alerts defined", some desc_text,
            "Does this description specify telemetry, metrics, monitoring, alerts, dashboards, or observability requirements?"⟩]
      else Except.ok []
    else Except.ok [])
  Except.ok (storyItems ++ acItems ++ descItems)

/-- Stripping only removes characters: the stripped length never grows. -/
theorem pyStrip_length_le (s : String) : (pyStrip s).length ≤ s.length := by
  show (((s.toList.dropWhile Char.isWhitespace).reverse.dropWhile
      Char.isWhitespace).reverse).length ≤ s.toList.length
  rw [List.length_reverse]
  calc ((s.toList.dropWhile Char.isWhitespace).reverse.dropWhile Char.isWhitespace).length
      ≤ ((s.toList.dropWhile Char.isWhitespace).reverse).length :=
        (List.dropWhile_sublist _).length_le
    _ = (s.toList.dropWhile Char.isWhitespace).length := List.length_reverse _
    _ ≤ s.toList.length := (List.dropWhile_sublist _).length_le

/-- Claim C10: `get_readiness_level` partitions percentages into four
bands: it returns "✅ Ready" iff the percentage is at least 90,
"⚠️  Nearly Ready" iff it is at least 70 and below 90, "🔸 Partially
Ready" iff it is at least 50 and below 70, and "❌ Not Ready" iff it is
below 50. -/
theorem C10_readiness_bands (p : ℚ) :
    (get_readiness_level p = "✅ Ready" ↔ 90 ≤ p) ∧
    (get_readiness_level p = "⚠️  Nearly Ready" ↔ 70 ≤ p ∧ p < 90) ∧
    (get_readiness_level p = "🔸 Partially Ready" ↔ 50 ≤ p ∧ p < 70) ∧
    (get_readiness_level p = "❌ Not Ready" ↔ p < 50) := by
  unfold get_readiness_level
  split_ifs with h1 h2 h3
  · refine ⟨iff_of_true rfl (by linarith), iff_of_false (by decide) ?_,
      iff_of_false (by decide) ?_, iff_of_false (by decide) ?_⟩
    · rintro ⟨-, h⟩; linarith
    · rintro ⟨-, h⟩; linarith
    · intro h; linarith
  · refine ⟨iff_of_false (by decide) h1, iff_of_true rfl ⟨h2, by linarith [lt_of_not_ge h1]⟩,
      iff_of_false (by decide) ?_, iff_of_false (by decide) ?_⟩
    · rintro ⟨-, h⟩; linarith
    · intro h; linarith
  · refine ⟨iff_of_false (by decide) h1, iff_of_false (by decide) ?_,
      iff_of_true rfl ⟨h3, lt_of_not_ge h2⟩, iff_of_false (by decide) ?_⟩
    · rintro ⟨h, -⟩; exact h2 h
    · intro h; linarith
  · refine ⟨iff_of_false (by decide) h1, iff_of_false (by decide) ?_,
      iff_of_false (by decide) ?_, iff_of_true rfl (lt_of_not_ge h3)⟩
    · rintro ⟨h, -⟩; exact h2 h
    · rintro ⟨h, -⟩; exact h3 h

/-- Claim C8: `_is_story_syntax_template` returns true for empty text, true
when the whitespace-normalized lower-cased text contains one of the fixed
unfilled story-syntax patterns, true when the normalized text is under 30
characters and contains "as a" together with "i want" or "i would like",
and false otherwise; in particular it is true on "As a I want So that" and
false on the long data-analyst narrative. -/
theorem C8_story_template_detection :
    (∀ text : String,
      _is_story_template text = true ↔
        (text = "" ∨
          (["as a i want so that",
            "as a i would like so that",
            "as a [user type] i want [feature] so that [benefit]",
            "as a [user type] i would like [feature] so that [benefit]"].any
              (fun pat => pyIn pat (normalizeWs (pyLower text)))) = true ∨
          ((normalizeWs (pyLower text)).length < 30 ∧
            pyIn "as a" (normalizeWs (pyLower text)) = true ∧
            (pyIn "i want" (normalizeWs (pyLower text)) = true ∨
              pyIn "i would like" (normalizeWs (pyLower text)) = true)))) ∧
    _is_story_template "As a I want So that" = true ∧
    _is_story_template
        "As a data analyst I want to export monthly billing reports as CSV so that finance can reconcile spend without manual copy-paste" =
      false := by
  refine ⟨?_, by decide, by decide⟩
  intro text
  unfold _is_story_template
  by_cases h0 : text = ""
  · simp [h0]
  · rw [if_neg (by simpa using h0)]
    split_ifs with h1 h2
    · simp only [true_iff]
      exact Or.inr (Or.inl h1)
    · simp only [true_iff]
      refine Or.inr (Or.inr ?_)
      have h2a := h2
      simp only [Bool.and_eq_true, Bool.or_eq_true, decide_eq_true_eq] at h2a
      exact ⟨h2a.1.1, h2a.1.2, h2a.2⟩
    · simp only [false_iff]
      rintro (h | h | ⟨hlen, hasa, hw⟩)
      · exact h0 h
      · exact h1 h
      · apply h2
        simp only [Bool.and_eq_true, Bool.or_eq_true, decide_eq_true_eq]
        exact ⟨⟨hlen, hasa⟩, hw⟩

/-- Claim C9: `_has_meaningful_content` is false for empty text or text
whose trimmed length is under 20, false when the whitespace-normalized
lower-cased text contains one of the fixed boilerplate phrases, and true
otherwise; in particular it is false for every 15-character string and true
for a 25-character non-template string. -/
theorem C9_meaningful_content :
    (∀ text : String,
      _has_meaningful_content text = true ↔
        (text ≠ "" ∧ 20 ≤ (pyStrip text).length ∧
          (["as a i would like so that",
            "steps to reproduce 1. login 2. navigate to page 3. click stuff",
            "please describe what the expected behavior is",
            "what actually happens"].any
              (fun phrase => pyIn phrase (normalizeWs (pyLower text)))) = false)) ∧
    (∀ text : String, text.length = 15 → _has_meaningful_content text = false) ∧
    _has_meaningful_content "Implement CSV export flow" = true := by
  refine ⟨?_, ?_, by decide⟩
  · intro text
    unfold _has_meaningful_content
    split_ifs with h1 h2
    · simp only [false_iff]
      simp only [Bool.or_eq_true, beq_iff_eq, decide_eq_true_eq] at h1
      rcases h1 with h1 | h1
      · rintro ⟨hne, -, -⟩; exact hne h1
      · rintro ⟨-, hlen, -⟩; omega
    · simp only [false_iff]
      rintro ⟨-, -, hnone⟩
      rw [h2] at hnone
      exact Bool.true_eq_false.mp hnone
    · simp only [true_iff]
      simp only [Bool.or_eq_true, beq_iff_eq, decide_eq_true_eq, not_or] at h1
      push_neg at h1
      exact ⟨h1.1, by omega, by simpa using h2⟩
  · intro text hlen
    unfold _has_meaningful_content
    have hle := pyStrip_length_le text
    rw [if_pos]
    simp only [Bool.or_eq_true, decide_eq_true_eq]
    exact Or.inr (by omega)

/-- Claim C5: the staleness score is the stated weighted sum of the capped
age factor, the capped inactivity factor and the refinement shortfall; for
non-negative day counts and a refinement percentage in [0, 100] it lies in
[0, 100], and at 400 days of age, 200 days since update and 20 percent
refinement it equals 96. -/
theorem C5_staleness_formula (a u p : ℚ) (ha : 0 ≤ a) (hu : 0 ≤ u)
    (hp0 : 0 ≤ p) (hp1 : p ≤ 100) :
    staleness_score a u p =
      min (a / 365) 1 * 40 + min (u / 180) 1 * 40 + (100 - p) / 100 * 20 ∧
    0 ≤ staleness_score a u p ∧ staleness_score a u p ≤ 100 ∧
    staleness_score 400 200 20 = 96 := by
  have h1 : 0 ≤ min (a / 365) 1 := le_min (by positivity) (by norm_num)
  have h2 : min (a / 365) 1 ≤ 1 := min_le_right _ _
  have h3 : 0 ≤ min (u / 180) 1 := le_min (by positivity) (by norm_num)
  have h4 : min (u / 180) 1 ≤ 1 := min_le_right _ _
  refine ⟨rfl, ?_, ?_, ?_⟩
  · unfold staleness_score age_factor inactivity_factor refinement_factor
    nlinarith
  · unfold staleness_score age_factor inactivity_factor refinement_factor
    nlinarith
  · unfold staleness_score age_factor inactivity_factor refinement_factor
    rw [min_eq_right (by norm_num), min_eq_right (by norm_num)]
    norm_num

/-- Witness for C5 at the concrete scenario of the spec. -/
theorem C5_staleness_formula_witness :
    staleness_score 400 200 20 = 96 ∧
    0 ≤ staleness_score 400 200 20 ∧ staleness_score 400 200 20 ≤ 100 := by
  have h := C5_staleness_formula 400 200 20 (by norm_num) (by norm_num)
    (by norm_num) (by norm_num)
  exact ⟨h.2.2.2, h.2.1, h.2.2.1⟩

/-- The empty configuration used for the review-extraction evidence. -/
def cfgC4 : DoRConfig := ⟨[], []⟩

/-- An issue whose description is plain text of more than 20 characters. -/
def issueC4 : JVal :=
  JVal.obj [("fields", JVal.obj
    [("description", JVal.str "Deploys to staging and production with alerts")])]

/-- Claim C4 evidence: with a description longer than 20 characters the
code emits the six description-derived review items in the stated order,
with distinct prompts, but the demo item carries no content at all while
every other item reuses the description text; the claim (and the spec,
which flags the omission as an oversight) requires all six to carry it. -/
theorem C4_demo_item_missing_content :
    (get_content_for_llm_review cfgC4 issueC4).map
        (fun items => items.map (fun it => (it.field_name, it.content))) =
      Except.ok
        [("environments", some "Deploys to staging and production with alerts"),
         ("security", some "Deploys to staging and production with alerts"),
         ("documentation", some "Deploys to staging and production with alerts"),
         ("demo", (none : Option String)),
         ("cost", some "Deploys to staging and production with alerts"),
         ("telemetry", some "Deploys to staging and production with alerts")] ∧
    (get_content_for_llm_review cfgC4 issueC4).map
        (fun items => decide (items.map ReviewItem.prompt).Nodup) =
      Except.ok true := by
  exact ⟨rfl, rfl⟩

theorem extractNode_null : extractNode JVal.null = Except.ok [] := by
  simp only [extractNode]

theorem extractNode_bool (b : Bool) : extractNode (JVal.bool b) = Except.ok [] := by
  simp only [extractNode]

theorem extractNode_num (n : Int) : extractNode (JVal.num n) = Except.ok [] := by
  simp only [extractNode]

theorem extractNode_str (s : String) : extractNode (JVal.str s) = Except.ok [] := by
  simp only [extractNode]

theorem extractNode_arr (xs : List JVal) : extractNode (JVal.arr xs) = extractList xs := by
  simp only [extractNode]

theorem extractNode_obj_none (kvs : List (String × JVal))
    (h : lookupKey kvs "content" = none) :
    extractNode (JVal.obj kvs) = Except.ok (selfPartsOf kvs) := by
  simp only [extractNode]
  split <;> simp_all

theorem extractNode_obj_arr (kvs : List (String × JVal)) (xs : List JVal)
    (h : lookupKey kvs "content" = some (JVal.arr xs)) :
    extractNode (JVal.obj kvs) =
      Except.map (fun ps => selfPartsOf kvs ++ ps) (extractList xs) := by
  simp only [extractNode]
  split <;> simp_all

theorem extractNode_obj_str (kvs : List (String × JVal)) (s : String)
    (h : lookupKey kvs "content" = some (JVal.str s)) :
    extractNode (JVal.obj kvs) = Except.ok (selfPartsOf kvs) := by
  simp only [extractNode]
  split <;> simp_all

theorem extractNode_obj_obj (kvs k2 : List (String × JVal))
    (h : lookupKey kvs "content" = some (JVal.obj k2)) :
    extractNode (JVal.obj kvs) = Except.ok (selfPartsOf kvs) := by
  simp only [extractNode]
  split <;> simp_all

theorem extractNode_obj_num (kvs : List (String × JVal)) (n : Int)
    (h : lookupKey kvs "content" = some (JVal.num n)) :
    extractNode (JVal.obj kvs) = Except.error () := by
  simp only [extractNode]
  split <;> simp_all

theorem extractList_nil : extractList [] = Except.ok [] := by
  simp only [extractList]

theorem extractList_cons (x : JVal) (xs : List JVal) :
    extractList (x :: xs) =
      (extractNode x >>= fun a => extractList xs >>= fun b => Except.ok (a ++ b)) := by
  simp only [extractList]

/-- Whether a collected part is a string value. -/
def isStrV : JVal → Bool
  | JVal.str _ => true
  | _ => false

/-- Joining succeeds exactly when every part is a string. -/
theorem joinParts_of_allStr :
    ∀ ps : List JVal, ps.all isStrV = true → ∃ ss : List String, joinParts ps = Except.ok ss := by
  intro ps
  induction ps with
  | nil => intro h; exact ⟨[], rfl⟩
  | cons x rest ih =>
    intro h
    rw [List.all_cons, Bool.and_eq_true] at h
    cases x with
    | str s =>
      obtain ⟨ss, hss⟩ := ih h.2
      exact ⟨s :: ss, by simp [joinParts, hss, Except.map]⟩
    | null => simp [isStrV] at h
    | bool b => simp [isStrV] at h
    | num n => simp [isStrV] at h
    | arr xs => simp [isStrV] at h
    | obj kvs => simp [isStrV] at h

/-- The text-payload condition a dict node must satisfy so that its own
contribution to the collected parts is a string. -/
def wfTextPayload (kvs : List (String × JVal)) : Bool :=
  match lookupKey kvs "type" with
  | some (JVal.str t) =>
    if t == "text" then
      (match lookupKey kvs "text" with
       | some (JVal.str _) => true
       | none => true
       | some _ => false)
    else true
  | _ => true

/-- A dict node satisfying `wfTextPayload` contributes only strings. -/
theorem selfPartsOf_allStr (kvs : List (String × JVal)) (h : wfTextPayload kvs = true) :
    (selfPartsOf kvs).all isStrV = true := by
  unfold wfTextPayload at h
  unfold selfPartsOf
  rcases ht : lookupKey kvs "type" with _ | v
  · simp [ht]
  · cases v with
    | str t =>
      simp only [ht] at h ⊢
      by_cases htx : (t == "text") = true
      · rw [if_pos htx] at h
        rw [if_pos htx]
        rcases htxt : lookupKey kvs "text" with _ | w
        · simp [htxt, isStrV]
        · rw [htxt] at h
          cases w <;> simp_all [isStrV]
      · rw [if_neg htx]
        rfl
    | null => simp [ht]
    | bool b => simp [ht]
    | num n => simp [ht]
    | arr xs => simp [ht]
    | obj k2 => simp [ht]

/-- Well-formed documents: every content value on the traversal is a list,
a string or a dict (something Python can iterate), and every text payload
of a text-tagged node is a string. On these inputs the source traversal
cannot raise. -/
inductive WfDoc : JVal → Prop where
  | null : WfDoc JVal.null
  | bool (b : Bool) : WfDoc (JVal.bool b)
  | num (n : Int) : WfDoc (JVal.num n)
  | str (s : String) : WfDoc (JVal.str s)
  | arr (xs : List JVal) (h : ∀ x ∈ xs, WfDoc x) : WfDoc (JVal.arr xs)
  | objNone (kvs : List (String × JVal)) (ht : wfTextPayload kvs = true)
      (hc : lookupKey kvs "content" = none) : WfDoc (JVal.obj kvs)
  | objStr (kvs : List (String × JVal)) (s : String) (ht : wfTextPayload kvs = true)
      (hc : lookupKey kvs "content" = some (JVal.str s)) : WfDoc (JVal.obj kvs)
  | objObj (kvs k2 : List (String × JVal)) (ht : wfTextPayload kvs = true)
      (hc : lookupKey kvs "content" = some (JVal.obj k2)) : WfDoc (JVal.obj kvs)
  | objArr (kvs : List (String × JVal)) (xs : List JVal) (ht : wfTextPayload kvs = true)
      (hc : lookupKey kvs "content" = some (JVal.arr xs)) (h : ∀ x ∈ xs, WfDoc x) :
      WfDoc (JVal.obj kvs)

/-- Pointwise success lifts to list extraction. -/
theorem extractList_total (xs : List JVal)
    (h : ∀ x ∈ xs, ∃ ps, extractNode x = Except.ok ps ∧ ps.all isStrV = true) :
    ∃ ps, extractList xs = Except.ok ps ∧ ps.all isStrV = true := by
  induction xs with
  | nil => exact ⟨[], extractList_nil, rfl⟩
  | cons x rest ih =>
    obtain ⟨a, hea, haa⟩ := h x (List.mem_cons_self x rest)
    obtain ⟨b, heb, hab⟩ := ih (fun y hy => h y (List.mem_cons_of_mem x hy))
    refine ⟨a ++ b, ?_, ?_⟩
    · rw [extractList_cons, hea, heb]
      rfl
    · rw [List.all_append, Bool.and_eq_true]
      exact ⟨haa, hab⟩

/-- On well-formed documents the traversal succeeds and collects only
strings. -/
theorem extractNode_total_of_wf :
    ∀ v : JVal, WfDoc v → ∃ ps, extractNode v = Except.ok ps ∧ ps.all isStrV = true := by
  intro v hv
  induction hv with
  | null => exact ⟨[], extractNode_null, rfl⟩
  | bool b => exact ⟨[], extractNode_bool b, rfl⟩
  | num n => exact ⟨[], extractNode_num n, rfl⟩
  | str s => exact ⟨[], extractNode_str s, rfl⟩
  | arr xs h ih =>
    obtain ⟨ps, he, ha⟩ := extractList_total xs ih
    exact ⟨ps, by rw [extractNode_arr]; exact he, ha⟩
  | objNone kvs ht hc => exact ⟨selfPartsOf kvs, extractNode_obj_none kvs hc, selfPartsOf_allStr kvs ht⟩
  | objStr kvs s ht hc => exact ⟨selfPartsOf kvs, extractNode_obj_str kvs s hc, selfPartsOf_allStr kvs ht⟩
  | objObj kvs k2 ht hc => exact ⟨selfPartsOf kvs, extractNode_obj_obj kvs k2 hc, selfPartsOf_allStr kvs ht⟩
  | objArr kvs xs ht hc h ih =>
    obtain ⟨ps, he, ha⟩ := extractList_total xs ih
    refine ⟨selfPartsOf kvs ++ ps, ?_, ?_⟩
    · rw [extractNode_obj_arr kvs xs hc, he]
      rfl
    · rw [List.all_append, Bool.and_eq_true]
      exact ⟨selfPartsOf_allStr kvs ht, ha⟩

/-- On well-formed input the whole extractor succeeds. -/
theorem extract_total_of_wf (v : JVal) (h : WfDoc v) :
    ∃ s, _extract_adf_text v = Except.ok s := by
  cases v with
  | obj kvs =>
    obtain ⟨ps, he, ha⟩ := extractNode_total_of_wf (JVal.obj kvs) h
    obtain ⟨ss, hss⟩ := joinParts_of_allStr ps ha
    exact ⟨String.intercalate " " ss, by rw [_extract_adf_text, he]; simp [hss, bind, Except.bind]⟩
  | null => exact ⟨_, rfl⟩
  | bool b => exact ⟨_, rfl⟩
  | num n => exact ⟨_, rfl⟩
  | str s => exact ⟨_, rfl⟩
  | arr xs => exact ⟨_, rfl⟩

/-- The key-value list of the first text leaf of the sample document. -/
def leaf1kvs : List (String × JVal) := [("type", JVal.str "text"), ("text", JVal.str "As a user")]

/-- The key-value list of the second text leaf of the sample document. -/
def leaf2kvs : List (String × JVal) := [("type", JVal.str "text"), ("text", JVal.str "I want X")]

/-- The key-value list of the paragraph node of the sample document. -/
def parakvs : List (String × JVal) :=
  [("type", JVal.str "paragraph"),
   ("content", JVal.arr [JVal.obj leaf1kvs, JVal.obj leaf2kvs])]

/-- The key-value list of the document root of the sample document. -/
def dockvs : List (String × JVal) :=
  [("type", JVal.str "doc"), ("version", JVal.num 1),
   ("content", JVal.arr [JVal.obj parakvs])]

/-- A two-leaf sample document in the shape of the issue tracker rich text:
a doc node containing one paragraph with two text leaves. -/
def storyDoc : JVal := JVal.obj dockvs

/-- Claim C7 (amended): `_extract_adf_text` stringifies any non-dict input
unchanged (so it is the identity on already-flat text), and on a rich
document it returns the depth-first, order-preserving concatenation of the
text leaves joined by single spaces, as on the sample two-leaf document;
it is total on every well-formed document, but — contrary to the claim as
stated — it raises a TypeError on a dict whose content value is a number,
a boolean or None, or whose text payload is not a string. -/
theorem C7_extract_adf_text_behavior :
    (∀ v : JVal, (∀ kvs, v ≠ JVal.obj kvs) → _extract_adf_text v = Except.ok (pyStr v)) ∧
    (∀ s : String, _extract_adf_text (JVal.str s) = Except.ok s) ∧
    _extract_adf_text storyDoc = Except.ok "As a user I want X" ∧
    (∀ v : JVal, WfDoc v → ∃ s, _extract_adf_text v = Except.ok s) := by
  refine ⟨?_, ?_, ?_, extract_total_of_wf⟩
  · intro v hv
    cases v with
    | obj kvs => exact absurd rfl (hv kvs)
    | null => rfl
    | bool b => rfl
    | num n => rfl
    | str s => rfl
    | arr xs => rfl
  · intro s; rfl
  · have hn1 : lookupKey leaf1kvs "content" = none := rfl
    have hn2 : lookupKey leaf2kvs "content" = none := rfl
    have hp : lookupKey parakvs "content" =
        some (JVal.arr [JVal.obj leaf1kvs, JVal.obj leaf2kvs]) := rfl
    have hd : lookupKey dockvs "content" = some (JVal.arr [JVal.obj parakvs]) := rfl
    have ht1 : extractNode (JVal.obj leaf1kvs) = Except.ok [JVal.str "As a user"] := by
      rw [extractNode_obj_none leaf1kvs hn1]
      rfl
    have ht2 : extractNode (JVal.obj leaf2kvs) = Except.ok [JVal.str "I want X"] := by
      rw [extractNode_obj_none leaf2kvs hn2]
      rfl
    have hpara : extractNode (JVal.obj parakvs) =
        Except.ok [JVal.str "As a user", JVal.str "I want X"] := by
      rw [extractNode_obj_arr parakvs _ hp, extractList_cons, ht1, extractList_cons,
        ht2, extractList_nil]
      rfl
    have hdoc : extractNode (JVal.obj dockvs) =
        Except.ok [JVal.str "As a user", JVal.str "I want X"] := by
      rw [extractNode_obj_arr dockvs _ hd, extractList_cons, hpara, extractList_nil]
      rfl
    have hun : _extract_adf_text storyDoc =
        (extractNode (JVal.obj dockvs) >>= fun parts =>
          joinParts parts >>= fun ss => Except.ok (String.intercalate " " ss)) := rfl
    rw [hun, hdoc]
    rfl

/-- Claim C7 counterexample: on the dict `\x7b"content": 5\x7d` the
traversal iterates a non-iterable content value, a TypeError, so the
extractor is not total on arbitrary input. -/
theorem C7_totality_counterexample :
    _extract_adf_text (JVal.obj [("content", JVal.num 5)]) = Except.error () := by
  have hc : lookupKey [("content", JVal.num 5)] "content" = some (JVal.num 5) := rfl
  rw [_extract_adf_text, extractNode_obj_num [("content", JVal.num 5)] 5 hc]
  rfl

/-- Claim C3: for a rule with the `optional_for_non_stories` flag whose
custom field resolves, and a known issue type other than story: an unset
(falsy) value passes as "N/A (not required)", a value whose extracted text
is an unfilled story-syntax template passes as "N/A (template text)", and a
meaningfully filled value passes as "optional but provided"; for issue type
story or an unknown type the waiver does not apply and an unset value makes
the rule fail. -/
theorem C3_optional_for_non_stories_waiver (cfg : DoRConfig) (item : ChecklistItem)
    (fields : List (String × JVal)) (ity cfid : String)
    (hs : item.field ≠ some "summary") (hp : item.field ≠ some "parent")
    (hr : resolveCfId cfg item = some cfid) (hne : cfid ≠ "")
    (hflag : item.optional_for_non_stories = true) :
    (ity ≠ "" → ity ≠ "story" →
      truthy ((lookupKey fields cfid).getD JVal.null) = false →
      _check_field cfg item fields ity =
        Except.ok (true, "N/A (not required for this issue type)")) ∧
    (∀ txt : String, ity ≠ "" → ity ≠ "story" →
      truthy ((lookupKey fields cfid).getD JVal.null) = true →
      _extract_adf_text ((lookupKey fields cfid).getD JVal.null) = Except.ok txt →
      _is_story_template txt = true →
      _check_field cfg item fields ity =
        Except.ok (true, "N/A (template text, not required for this issue type)")) ∧
    (∀ txt : String, ity ≠ "" → ity ≠ "story" →
      truthy ((lookupKey fields cfid).getD JVal.null) = true →
      _extract_adf_text ((lookupKey fields cfid).getD JVal.null) = Except.ok txt →
      _is_story_template txt = false → _has_meaningful_content txt = true →
      _check_field cfg item fields ity =
        Except.ok (true, "Optional but provided (" ++ toString txt.length ++ " chars)")) ∧
    ((ity = "story" ∨ ity = "") →
      truthy ((lookupKey fields cfid).getD JVal.null) = false →
      _check_field cfg item fields ity =
        Except.ok (false, "Field \x27" ++ item.name ++ "\x27 is not populated")) := by
  have hbne : (cfid != "") = true := bne_iff_ne.mpr hne
  refine ⟨?_, ?_, ?_, ?_⟩
  · intro h1 h2 h3
    have hb1 : (ity != "") = true := bne_iff_ne.mpr h1
    have hb2 : (ity != "story") = true := bne_iff_ne.mpr h2
    simp [_check_field, hs, hp, hr, hbne, hflag, hb1, hb2, h3]
  · intro txt h1 h2 h3 hext htmpl
    have hb1 : (ity != "") = true := bne_iff_ne.mpr h1
    have hb2 : (ity != "story") = true := bne_iff_ne.mpr h2
    simp [_check_field, hs, hp, hr, hbne, hflag, hb1, hb2, h3, hext, htmpl,
      bind, Except.bind]
  · intro txt h1 h2 h3 hext htmpl hmean
    have hb1 : (ity != "") = true := bne_iff_ne.mpr h1
    have hb2 : (ity != "story") = true := bne_iff_ne.mpr h2
    simp [_check_field, hs, hp, hr, hbne, hflag, hb1, hb2, h3, hext, htmpl, hmean,
      bind, Except.bind]
  · intro hty h3
    have hcond : (item.optional_for_non_stories && ity != "" && ity != "story") = false := by
      rcases hty with h | h <;> simp [h]
    simp [_check_field, hs, hp, hr, hbne, hcond, generalCustomCheck, h3]

/-- The waiver rule used to witness C3: an explicit custom field identifier
and the `optional_for_non_stories` flag. -/
def itemC3 : ChecklistItem :=
  ⟨"Story Syntax", none, some "customfield_12015", 20, false, [], true, false⟩

/-- An empty configuration for the C3 witness. -/
def cfgC3 : DoRConfig := ⟨[itemC3], []⟩

/-- Witness for C3: all four waiver scenarios at concrete inputs. -/
theorem C3_optional_for_non_stories_waiver_witness :
    _check_field cfgC3 itemC3 [] "bug" =
      Except.ok (true, "N/A (not required for this issue type)") ∧
    _check_field cfgC3 itemC3 [("customfield_12015", JVal.str "As a I want So that")] "bug" =
      Except.ok (true, "N/A (template text, not required for this issue type)") ∧
    _check_field cfgC3 itemC3
        [("customfield_12015", JVal.str "Export monthly billing reports as CSV files")] "bug" =
      Except.ok (true, "Optional but provided (43 chars)") ∧
    _check_field cfgC3 itemC3 [] "story" =
      Except.ok (false, "Field \x27Story Syntax\x27 is not populated") := by
  refine ⟨?_, ?_, ?_, ?_⟩
  · exact (C3_optional_for_non_stories_waiver cfgC3 itemC3 [] "bug" "customfield_12015"
      (by decide) (by decide) rfl (by decide) rfl).1 (by decide) (by decide) rfl
  · exact (C3_optional_for_non_stories_waiver cfgC3 itemC3
      [("customfield_12015", JVal.str "As a I want So that")] "bug" "customfield_12015"
      (by decide) (by decide) rfl (by decide) rfl).2.1 "As a I want So that"
      (by decide) (by decide) rfl rfl (by decide)
  · exact (C3_optional_for_non_stories_waiver cfgC3 itemC3
      [("customfield_12015", JVal.str "Export monthly billing reports as CSV files")]
      "bug" "customfield_12015" (by decide) (by decide) rfl (by decide) rfl).2.2.1
      "Export monthly billing reports as CSV files"
      (by decide) (by decide) rfl rfl (by decide) (by decide)
  · exact (C3_optional_for_non_stories_waiver cfgC3 itemC3 [] "story" "customfield_12015"
      (by decide) (by decide) rfl (by decide) rfl).2.2.2 (Or.inl rfl) rfl

/-- Claim C6: a rule evaluated through `check_in_description` (its field
does not resolve to a custom field identifier) passes iff some keyword of
the fixed per-field table occurs in the lower-cased extracted description
and that text is longer than 50 characters; on success the details list the
matched keywords, on failure at most three expected ones; an unknown field
name falls back to the singleton keyword set containing the name itself. -/
theorem C6_check_in_description_rule (cfg : DoRConfig) (item : ChecklistItem)
    (fields : List (String × JVal)) (ity fn dt : String)
    (hf : item.field = some fn) (hfs : fn ≠ "summary") (hfp : fn ≠ "parent")
    (hr : (resolveCfId cfg item).getD "" = "")
    (hcd : item.check_in_description = true)
    (hdt : descTextOf fields = Except.ok dt) :
    ((_get_keywords_for_field fn).filter (fun kw => pyIn kw (pyLower dt)) ≠ [] ∧
        50 < (pyLower dt).length →
      _check_field cfg item fields ity =
        Except.ok (true, "Mentioned in description: " ++
          String.intercalate ", "
            ((_get_keywords_for_field fn).filter (fun kw => pyIn kw (pyLower dt))))) ∧
    (¬((_get_keywords_for_field fn).filter (fun kw => pyIn kw (pyLower dt)) ≠ [] ∧
        50 < (pyLower dt).length) →
      _check_field cfg item fields ity =
        Except.ok (false, "Not mentioned in description (expected: " ++
          String.intercalate ", " ((_get_keywords_for_field fn).take 3) ++ ")")) ∧
    (∀ g : String,
      g ∉ ["environments", "security", "documentation", "demo", "cost", "telemetry"] →
      _get_keywords_for_field g = [g]) := by
  have hs : item.field ≠ some "summary" := by rw [hf]; simpa using hfs
  have hp : item.field ≠ some "parent" := by rw [hf]; simpa using hfp
  refine ⟨?_, ?_, ?_⟩
  · intro hcond
    have hemp : ((_get_keywords_for_field fn).filter
        (fun kw => pyIn kw (pyLower dt))).isEmpty = false := by
      rw [List.isEmpty_eq_false]
      exact hcond.1
    simp [_check_field, hfs, hfp, hf, hr, hcd, hdt, bind, Except.bind, hemp, hcond.2]
  · intro hcond
    rw [not_and_or] at hcond
    rcases hcond with hcond | hcond
    · have hemp : ((_get_keywords_for_field fn).filter
          (fun kw => pyIn kw (pyLower dt))).isEmpty = true := by
        rw [List.isEmpty_iff]
        simpa using hcond
      simp [_check_field, hfs, hfp, hf, hr, hcd, hdt, bind, Except.bind, hemp]
    · have hlen : ¬ 50 < (pyLower dt).length := by simpa using hcond
      simp [_check_field, hfs, hfp, hf, hr, hcd, hdt, bind, Except.bind, hlen]
  · intro g hg
    simp only [List.mem_cons, List.mem_singleton, not_or] at hg
    obtain ⟨g1, g2, g3, g4, g5, g6, -⟩ := hg
    simp [_get_keywords_for_field, g1, g2, g3, g4, g5, g6]

/-- The keyword rule used to witness C6. -/
def itemC6 : ChecklistItem :=
  ⟨"Environments", some "environments", none, 5, false, [], false, true⟩

/-- An empty configuration for the C6 witness. -/
def cfgC6 : DoRConfig := ⟨[itemC6], []⟩

/-- Witness for C6: a passing and a failing concrete description, and the
fallback keyword set for an unknown field name. -/
theorem C6_check_in_description_rule_witness :
    _check_field cfgC6 itemC6
        [("description",
          JVal.str "This service is deployed to staging and production environments weekly")]
        "story" =
      Except.ok (true,
        "Mentioned in description: staging, production, environment, deploy") ∧
    _check_field cfgC6 itemC6 [("description", JVal.str "Alpha beta")] "story" =
      Except.ok (false,
        "Not mentioned in description (expected: staging, pre-prod, pre-production)") ∧
    _get_keywords_for_field "budget_code" = ["budget_code"] := by
  refine ⟨?_, ?_, ?_⟩
  · exact (C6_check_in_description_rule cfgC6 itemC6
      [("description",
        JVal.str "This service is deployed to staging and production environments weekly")]
      "story" "environments"
      "This service is deployed to staging and production environments weekly"
      rfl (by decide) (by decide) rfl rfl rfl).1 (by decide)
  · exact (C6_check_in_description_rule cfgC6 itemC6
      [("description", JVal.str "Alpha beta")] "story" "environments" "Alpha beta"
      rfl (by decide) (by decide) rfl rfl rfl).2.1 (by decide)
  · exact (C6_check_in_description_rule cfgC6 itemC6 [] "story" "environments" ""
      rfl (by decide) (by decide) rfl rfl rfl).2.2 "budget_code" (by decide)

/-- The rounded value never goes below a non-negative argument floor. -/
theorem pyRoundInt_nonneg {q : ℚ} (h : 0 ≤ q) : 0 ≤ pyRoundInt q := by
  simp only [pyRoundInt]
  have hf : (0:ℤ) ≤ ⌊q⌋ := Int.floor_nonneg.mpr h
  split_ifs <;> omega

/-- The rounded value never exceeds an integer upper bound of the argument. -/
theorem pyRoundInt_le {q : ℚ} {B : ℤ} (h : q ≤ B) : pyRoundInt q ≤ B := by
  simp only [pyRoundInt]
  have hfl : ⌊q⌋ ≤ B := by
    calc ⌊q⌋ ≤ ⌊(B:ℚ)⌋ := Int.floor_le_floor h
      _ = B := Int.floor_intCast B
  split_ifs with h1 h2 h3
  · exact hfl
  · by_contra hc
    push_neg at hc
    have heq : ⌊q⌋ = B := le_antisymm hfl (by omega)
    rw [heq] at h2
    have hlt : (B:ℚ) < q := by linarith
    exact absurd h (not_le.mpr hlt)
  · exact hfl
  · by_contra hc
    push_neg at hc
    have heq : ⌊q⌋ = B := le_antisymm hfl (by omega)
    have hr : q - ⌊q⌋ = 1 / 2 := le_antisymm (not_lt.mp h2) (not_lt.mp h1)
    rw [heq] at hr
    have hlt : (B:ℚ) < q := by linarith
    exact absurd h (not_le.mpr hlt)

/-- Rounding to one decimal keeps non-negativity. -/
theorem round1_nonneg {q : ℚ} (h : 0 ≤ q) : 0 ≤ round1 q := by
  unfold round1
  have h1 := pyRoundInt_nonneg (mul_nonneg h (by norm_num : (0:ℚ) ≤ 10))
  have h2 : (0:ℚ) ≤ (pyRoundInt (q * 10) : ℚ) := by exact_mod_cast h1
  positivity

/-- Rounding to one decimal keeps the 100 bound. -/
theorem round1_le_100 {q : ℚ} (h : q ≤ 100) : round1 q ≤ 100 := by
  unfold round1
  have h10 : q * 10 ≤ ((1000:ℤ):ℚ) := by push_cast; linarith
  have h1 := pyRoundInt_le h10
  rw [div_le_iff₀ (by norm_num : (0:ℚ) < 10)]
  calc ((pyRoundInt (q * 10) : ℤ):ℚ) ≤ ((1000:ℤ):ℚ) := by exact_mod_cast h1
    _ = 100 * 10 := by norm_num

/-- Rounding zero gives zero. -/
theorem round1_zero : round1 0 = 0 := by
  norm_num [round1, pyRoundInt]

/-- The checklist loop keeps the running score between zero and the
running maximum, provided all weights are non-negative. -/
theorem processChecklist_bounds (cfg : DoRConfig) (fields : List (String × JVal))
    (ity : String) :
    ∀ (items : List ChecklistItem) (total maxp : ℚ) (acc : List CheckResult)
      (t m : ℚ) (rs : List CheckResult),
      (∀ item ∈ items, 0 ≤ item.weight) → 0 ≤ total → total ≤ maxp →
      processChecklist cfg fields ity items total maxp acc = Except.ok (t, m, rs) →
      0 ≤ t ∧ t ≤ m := by
  intro items
  induction items with
  | nil =>
    intro total maxp acc t m rs hw h0 hm hp
    simp only [processChecklist, Except.ok.injEq, Prod.mk.injEq] at hp
    obtain ⟨h1, h2, -⟩ := hp
    subst h1
    subst h2
    exact ⟨h0, hm⟩
  | cons item rest ih =>
    intro total maxp acc t m rs hw h0 hm hp
    simp only [processChecklist] at hp
    by_cases hskip :
        (!item.applies_to.isEmpty && !((item.applies_to.map pyLower).contains ity)) = true
    · rw [if_pos hskip] at hp
      exact ih total maxp acc t m rs (fun i hi => hw i (List.mem_cons_of_mem item hi))
        h0 hm hp
    · rw [if_neg hskip] at hp
      cases hcf : _check_field cfg item fields ity with
      | error e =>
        rw [hcf] at hp
        simp [bind, Except.bind] at hp
      | ok pd =>
        obtain ⟨passed, details⟩ := pd
        rw [hcf] at hp
        simp only [bind, Except.bind] at hp
        have hw0 : 0 ≤ item.weight := hw item (List.mem_cons_self item rest)
        have hs0 : 0 ≤ (if passed = true then item.weight else 0) := by
          split <;> simp [hw0]
        have hs1 : (if passed = true then item.weight else 0) ≤ item.weight := by
          split <;> simp [hw0]
        exact ih _ _ _ t m rs (fun i hi => hw i (List.mem_cons_of_mem item hi))
          (by linarith) (by linarith) hp

/-- Claim C1: whenever `check_issue` returns a result (all configured
weights being non-negative, as the data model requires), its percentage
lies in [0, 100]; it equals round(score / max_score × 100, 1) when
max_score is positive and is exactly 0 when max_score is 0, so the guarded
division never divides by zero. -/
theorem C1_percentage_bounds (cfg : DoRConfig) (issue : JVal) (r : DoRResult)
    (hw : ∀ item ∈ cfg.checklist, 0 ≤ item.weight)
    (h : check_issue cfg issue = Except.ok r) :
    0 ≤ r.percentage ∧ r.percentage ≤ 100 ∧
    (0 < r.max_score → r.percentage = round1 (r.score / r.max_score * 100)) ∧
    (r.max_score = 0 → r.percentage = 0) := by
  rw [check_issue] at h
  simp only [bind, Except.bind] at h
  cases h1 : issueTypeOf issue with
  | error e => rw [h1] at h; simp at h
  | ok ity =>
  rw [h1] at h
  simp only [] at h
  cases h2 : objKvs issue with
  | error e => rw [h2] at h; simp at h
  | ok ikvs =>
  rw [h2] at h
  simp only [] at h
  cases h3 : objKvs ((lookupKey ikvs "fields").getD (JVal.obj [])) with
  | error e => rw [h3] at h; simp at h
  | ok fields =>
  rw [h3] at h
  simp only [] at h
  cases h4 : processChecklist cfg fields ity cfg.checklist 0 0 [] with
  | error e => rw [h4] at h; simp at h
  | ok tmr =>
  obtain ⟨t, m, rs⟩ := tmr
  rw [h4] at h
  simp only [] at h
  cases h5 : objKvs ((lookupKey fields "status").getD (JVal.obj [])) with
  | error e => rw [h5] at h; simp at h
  | ok skvs =>
  rw [h5] at h
  simp only [Except.ok.injEq] at h
  subst h
  have hbounds := processChecklist_bounds cfg fields ity cfg.checklist 0 0 [] t m rs hw
    le_rfl le_rfl h4
  obtain ⟨ht0, htm⟩ := hbounds
  simp only
  rcases eq_or_lt_of_le (le_trans ht0 htm) with hm0 | hmpos
  · have hm0 : m = 0 := hm0.symm
    subst hm0
    rw [if_neg (by norm_num)]
    rw [round1_zero]
    norm_num
  · rw [if_pos hmpos]
    have hq0 : 0 ≤ t / m * 100 := by positivity
    have hq1 : t / m * 100 ≤ 100 := by
      have hd : t / m ≤ 1 := (div_le_one hmpos).mpr htm
      nlinarith
    refine ⟨round1_nonneg hq0, round1_le_100 hq1, fun _ => rfl, fun hm => ?_⟩
    rw [hm] at hmpos
    exact absurd hmpos (by norm_num)

/-- An empty configuration for the C1 witness. -/
def cfgC1 : DoRConfig := ⟨[], []⟩

/-- A minimal issue record for the C1 witness. -/
def issueC1 : JVal :=
  JVal.obj [("fields", JVal.obj [("issuetype", JVal.obj [("name", JVal.str "Story")])])]

/-- The result of checking `issueC1` against the empty checklist. -/
def rC1 : DoRResult :=
  ⟨0, 0, 0, [], ["✓ Issue meets all required Definition of Ready criteria!"],
    none, none, none⟩

/-- Witness for C1 at a concrete configuration and issue. -/
theorem C1_percentage_bounds_witness :
    0 ≤ rC1.percentage ∧ rC1.percentage ≤ 100 ∧
    (0 < rC1.max_score → rC1.percentage = round1 (rC1.score / rC1.max_score * 100)) ∧
    (rC1.max_score = 0 → rC1.percentage = 0) := by
  have hE : check_issue cfgC1 issueC1 = Except.ok rC1 := by
    rw [check_issue]
    simp only [bind, Except.bind, cfgC1, issueC1, issueTypeOf, objKvs, lookupKey,
      processChecklist, _generate_recommendations, rC1]
    norm_num [pyLower, round1_zero, round1]
    norm_num [pyRoundInt]
    rfl
  exact C1_percentage_bounds cfgC1 issueC1 rC1 (by simp [cfgC1]) hE

/-- `_check_field` reads only the alias table of the configuration. -/
theorem _check_field_congr (L1 L2 : List ChecklistItem) (cf : List (String × String))
    (item : ChecklistItem) (fields : List (String × JVal)) (ity : String) :
    _check_field ⟨L1, cf⟩ item fields ity = _check_field ⟨L2, cf⟩ item fields ity := rfl

/-- The checklist loop reads only the alias table of the configuration. -/
theorem processChecklist_congr (L1 L2 : List ChecklistItem) (cf : List (String × String))
    (fields : List (String × JVal)) (ity : String) :
    ∀ (items : List ChecklistItem) (total maxp : ℚ) (acc : List CheckResult),
      processChecklist ⟨L1, cf⟩ fields ity items total maxp acc =
        processChecklist ⟨L2, cf⟩ fields ity items total maxp acc := by
  intro items
  induction items with
  | nil => intro total maxp acc; rfl
  | cons item rest ih =>
    intro total maxp acc
    simp only [processChecklist]
    by_cases hc :
        (!item.applies_to.isEmpty && !((item.applies_to.map pyLower).contains ity)) = true
    · rw [if_pos hc, if_pos hc]
      exact ih total maxp acc
    · rw [if_neg hc, if_neg hc]
      rw [_check_field_congr L1 L2 cf item fields ity]
      cases hcf : _check_field ⟨L2, cf⟩ item fields ity with
      | error e => rfl
      | ok pd =>
        obtain ⟨passed, details⟩ := pd
        simp only [bind, Except.bind]
        exact ih _ _ _

/-- A rule skipped by the `applies_to` filter leaves the whole loop state
untouched: running it on a list with the rule inserted gives the same
outcome as running it without the rule. -/
theorem processChecklist_skip (cfg : DoRConfig) (fields : List (String × JVal))
    (ity : String) (rule : ChecklistItem)
    (hne : rule.applies_to ≠ [])
    (hnm : ity ∉ rule.applies_to.map pyLower) :
    ∀ (pre post : List ChecklistItem) (total maxp : ℚ) (acc : List CheckResult),
      processChecklist cfg fields ity (pre ++ rule :: post) total maxp acc =
        processChecklist cfg fields ity (pre ++ post) total maxp acc := by
  have hcond :
      (!rule.applies_to.isEmpty && !((rule.applies_to.map pyLower).contains ity)) = true := by
    have h1 : rule.applies_to.isEmpty = false := by
      rw [List.isEmpty_eq_false]
      exact hne
    have h2 : (rule.applies_to.map pyLower).contains ity = false := by
      by_contra hc
      rw [Bool.not_eq_false] at hc
      exact hnm (List.mem_of_elem_eq_true hc)
    rw [h1, h2]
    rfl
  intro pre
  induction pre with
  | nil =>
    intro post total maxp acc
    simp only [List.nil_append, processChecklist]
    rw [if_pos hcond]
  | cons hd tl ih =>
    intro post total maxp acc
    simp only [List.cons_append, processChecklist]
    by_cases hc :
        (!hd.applies_to.isEmpty && !((hd.applies_to.map pyLower).contains ity)) = true
    · rw [if_pos hc, if_pos hc]
      exact ih post total maxp acc
    · rw [if_neg hc, if_neg hc]
      cases hcf : _check_field cfg hd fields ity with
      | error e => simp [bind, Except.bind, hcf]
      | ok pd =>
        obtain ⟨passed, details⟩ := pd
        simp only [bind, Except.bind, hcf]
        exact ih post _ _ _

/-- Claim C2: a rule whose `applies_to` set is non-empty and does not
contain the lower-cased issue type is skipped entirely by `check_issue`:
the whole result — score, max_score, percentage, checklist entries and
recommendations — is the same as if the rule were absent from the
configuration. -/
theorem C2_inapplicable_rule_skipped (cf : List (String × String))
    (pre post : List ChecklistItem) (rule : ChecklistItem) (issue : JVal) (ity : String)
    (hne : rule.applies_to ≠ [])
    (hty : issueTypeOf issue = Except.ok ity)
    (hnm : ity ∉ rule.applies_to.map pyLower) :
    check_issue ⟨pre ++ rule :: post, cf⟩ issue = check_issue ⟨pre ++ post, cf⟩ issue := by
  rw [check_issue, check_issue]
  simp only [bind, Except.bind]
  rw [hty]
  simp only []
  cases h2 : objKvs issue with
  | error e => rfl
  | ok ikvs =>
  simp only []
  cases h3 : objKvs ((lookupKey ikvs "fields").getD (JVal.obj [])) with
  | error e => rfl
  | ok fields =>
  simp only []
  rw [processChecklist_congr (pre ++ rule :: post) (pre ++ post) cf fields ity]
  rw [processChecklist_skip ⟨pre ++ post, cf⟩ fields ity rule hne hnm]

/-- The always-applicable rule of the C2 witness. -/
def ruleA : ChecklistItem := ⟨"Title", some "summary", none, 10, false, [], false, false⟩

/-- The story-only rule of the C2 witness, skipped for bugs. -/
def ruleSkip : ChecklistItem :=
  ⟨"Story Only", none, some "customfield_5", 20, false, ["Story"], false, false⟩

/-- A bug issue for the C2 witness. -/
def issueC2 : JVal :=
  JVal.obj [("fields", JVal.obj
    [("summary", JVal.str "Fix the login flow"),
     ("issuetype", JVal.obj [("name", JVal.str "Bug")])])]

/-- Witness for C2: dropping the story-only rule does not change the result
for a bug issue. -/
theorem C2_inapplicable_rule_skipped_witness :
    check_issue ⟨[ruleA, ruleSkip], []⟩ issueC2 = check_issue ⟨[ruleA], []⟩ issueC2 := by
  exact C2_inapplicable_rule_skipped [] [ruleA] [] ruleSkip issueC2 "bug"
    (by decide) rfl (by decide)

end PoAgent
